import Mathlib

/-!
Verification of the request-dispatch pipeline and worker pool of the
wwwdaanlubbersnl web server (sources: src/webserver.rs, src/concurrency.rs).

The Rust code is shallowly embedded: handlers (Rust fn values returning
Result<Response, String>) become Except values, the file-system collaborator
becomes a pair of partial maps, and the bytes written to the TcpStream become
a List Nat (one Nat per byte). The mutually recursive dispatch functions
handle_resource / handle_html / handle_image / handle_not_found / handle_error
are embedded as a single fuel-indexed interpreter over an inductive of pending
calls, so that non-termination of the Rust recursion is observable as the
interpreter returning none for every fuel amount.
-/

deriving instance DecidableEq for Except

namespace WwwDaanLubbers

/-- Request methods, from enum RequestType in webserver.rs. -/
inductive RequestType
  | GET
  | POST
  | PUT
  | DELETE
deriving DecidableEq

/-- Status codes, from enum StatusCode in webserver.rs. -/
inductive StatusCode
  | OK
  | NotFound
  | InternalServerError
  | PermanentRedirect
deriving DecidableEq

/-- The Display implementation for StatusCode in webserver.rs. -/
def StatusCode.display : StatusCode → String
  | StatusCode.OK => "HTTP/1.1 200 OK"
  | StatusCode.NotFound => "HTTP/1.1 404 NOT FOUND"
  | StatusCode.InternalServerError => "HTTP/1.1 500 INTERNAL SERVER ERROR"
  | StatusCode.PermanentRedirect => "HTTP/1.1 301 PERMANENT REDIRECT"

/-- Response kinds, from enum ResourceType in webserver.rs. -/
inductive ResourceType
  | HTML
  | IMAGE
  | REDIRECT
deriving DecidableEq

/-- A handler result, from struct Response in webserver.rs: a status code and
a resource locator (file path or redirect target). -/
structure Response where
  status_code : StatusCode
  path : String
deriving DecidableEq

/-- A registered route, from struct Resource in webserver.rs. The Rust handler
field is a fn pointer returning Result<Response, String>; handlers in this
program are constant closures, so a handler is embedded as its result. -/
structure Resource where
  request_type : RequestType
  path : String
  resource_type : ResourceType
  handler : Except String Response
deriving DecidableEq

/-- The route table portion of struct App in webserver.rs: the registered
routes in registration order plus the optional 404 and 500 fallback routes. -/
structure App where
  resources : List Resource
  resource_404 : Option Resource
  resource_500 : Option Resource
deriving DecidableEq

/-- The file-system collaborator: fs::read_to_string and fs::read, as partial
maps from a path to the text, respectively byte, content. -/
structure FS where
  read_to_string : String → Option String
  read : String → Option (List Nat)

/-- Byte encoding of a string written to the stream. All text the server
emits (status lines, header names, locators in this repository) is ASCII, so
each character is one byte whose value is its code point. -/
def strBytes (s : String) : List Nat :=
  s.data.map Char.toNat

/-- App::get_resource: linear scan of the registered routes, first route whose
method and path both match the request. -/
def get_resource (app : App) (request_type : RequestType) (path : String) :
    Option Resource :=
  app.resources.find? fun resource =>
    resource.request_type == request_type && resource.path == path

/-- The response-selection prelude of App::handle_resource: call the matched
route handler; on failure, if a 500 route is registered call its handler once;
none means both calls failed (or the first failed with no 500 route), which in
the Rust code leads into self.handle_error. -/
def select_response (app : App) (resource : Resource) : Option Response :=
  match resource.handler with
  | Except.ok response => some response
  | Except.error _ =>
    match app.resource_500 with
    | some resource500 =>
      match resource500.handler with
      | Except.ok response => some response
      | Except.error _ => none
    | none => none

/-- App::handle_redirect: status line, Location header with the locator,
Content-Length 0, blank line; no body, no file read. -/
def handle_redirect (path : String) (status : StatusCode) : List Nat :=
  strBytes (status.display ++ "\r\nLocation: " ++ path ++
    "\r\nContent-Length: 0\r\n\r\n")

/-- The built-in minimal reply of App::handle_not_found when no 404 route is
registered. -/
def builtin_404 : List Nat :=
  strBytes (StatusCode.NotFound.display ++ "\r\nContent-Length: 0\r\n\r\n")

/-- The built-in minimal reply of App::handle_error when no 500 route is
registered. -/
def builtin_500 : List Nat :=
  strBytes (StatusCode.InternalServerError.display ++
    "\r\nContent-Length: 0\r\n\r\n")

/-- A pending call in the mutual recursion among App::handle_resource,
App::handle_html, App::handle_image, App::handle_not_found and
App::handle_error. -/
inductive Call
  | resource (r : Resource)
  | html (path : String) (status : StatusCode)
  | image (path : String) (status : StatusCode)
  | notFound
  | errorPath

/-- Fuel-indexed interpreter for the mutually recursive dispatch functions of
webserver.rs. Each case body mirrors the corresponding Rust function; every
call from one of these functions to another consumes one unit of fuel. The
value none means the fuel ran out, some bytes means the Rust code terminates
and writes exactly those bytes to the stream (some [] would mean a return
without a write, which none of these five functions performs).

Fidelity note for the resource case: in Rust the inner binding in the error
arm shadows the resource parameter only while computing the response, so when
the original handler fails and the 500 route handler succeeds, the response
path and status come from the 500 route handler but the encoding still uses
the ORIGINAL resource.resource_type. -/
def dispatch (app : App) (fs : FS) : Nat → Call → Option (List Nat)
  | 0, _ => none
  | fuel+1, Call.resource resource =>
    match select_response app resource with
    | none => dispatch app fs fuel Call.errorPath
    | some response =>
      match resource.resource_type with
      | ResourceType.HTML =>
        dispatch app fs fuel (Call.html response.path response.status_code)
      | ResourceType.IMAGE =>
        dispatch app fs fuel (Call.image response.path response.status_code)
      | ResourceType.REDIRECT =>
        some (handle_redirect response.path response.status_code)
  | fuel+1, Call.html path status =>
    match fs.read_to_string path with
    | some content =>
      some (strBytes (status.display ++ "\r\nContent-Length: " ++
        toString content.length ++ "\r\n\r\n" ++ content))
    | none =>
      match app.resource_404 with
      | some resource404 => dispatch app fs fuel (Call.resource resource404)
      | none => dispatch app fs fuel Call.notFound
  | fuel+1, Call.image path status =>
    match fs.read path with
    | some content =>
      some (strBytes (status.display ++ "\r\nContent-Length: " ++
        toString content.length ++ "\r\n\r\n") ++ content)
    | none =>
      match app.resource_404 with
      | some resource404 => dispatch app fs fuel (Call.resource resource404)
      | none => dispatch app fs fuel Call.notFound
  | fuel+1, Call.notFound =>
    match app.resource_404 with
    | some resource404 => dispatch app fs fuel (Call.resource resource404)
    | none => some builtin_404
  | fuel+1, Call.errorPath =>
    match app.resource_500 with
    | some resource500 => dispatch app fs fuel (Call.resource resource500)
    | none => some builtin_500

/-- App::handle_resource, as entry into the fuel-indexed interpreter. -/
def handle_resource (app : App) (fs : FS) (fuel : Nat) (resource : Resource) :
    Option (List Nat) :=
  dispatch app fs fuel (Call.resource resource)

/-- App::handle_html, as entry into the fuel-indexed interpreter. -/
def handle_html (app : App) (fs : FS) (fuel : Nat) (path : String)
    (status : StatusCode) : Option (List Nat) :=
  dispatch app fs fuel (Call.html path status)

/-- App::handle_image, as entry into the fuel-indexed interpreter. -/
def handle_image (app : App) (fs : FS) (fuel : Nat) (path : String)
    (status : StatusCode) : Option (List Nat) :=
  dispatch app fs fuel (Call.image path status)

/-- App::handle_not_found, as entry into the fuel-indexed interpreter. -/
def handle_not_found (app : App) (fs : FS) (fuel : Nat) : Option (List Nat) :=
  dispatch app fs fuel Call.notFound

/-- App::handle_error, as entry into the fuel-indexed interpreter. -/
def handle_error (app : App) (fs : FS) (fuel : Nat) : Option (List Nat) :=
  dispatch app fs fuel Call.errorPath

/-- Rust str::split_whitespace on the characters of a string: split at
whitespace, discarding empty pieces (ASCII-adequate model: Char.isWhitespace
covers space, tab, carriage return and newline). Auxiliary recursion carrying
the current token in reverse. -/
def split_whitespace_aux : List Char → List Char → List String
  | [], acc => if acc.isEmpty then [] else [String.mk acc.reverse]
  | c :: cs, acc =>
    if c.isWhitespace then
      if acc.isEmpty then split_whitespace_aux cs []
      else String.mk acc.reverse :: split_whitespace_aux cs []
    else split_whitespace_aux cs (c :: acc)

/-- Rust str::split_whitespace. -/
def split_whitespace (s : String) : List String :=
  split_whitespace_aux s.data []

/-- The method-token parse in App::handle_request; none is the Unsupported
request branch, which returns without writing. -/
def parse_request_type : String → Option RequestType
  | "GET" => some RequestType.GET
  | "POST" => some RequestType.POST
  | "PUT" => some RequestType.PUT
  | "DELETE" => some RequestType.DELETE
  | _ => none

/-- App::handle_request from the point where the request line has been read:
tokenize, drop (returning, with no bytes written, modelled as some []) when
fewer than two tokens or the method token is unknown, otherwise look the
route up and dispatch it, or take the not-found path. The fuel only feeds
the dispatch interpreter; handle_request itself is not recursive. -/
def handle_request (app : App) (fs : FS) (line : String) (fuel : Nat) :
    Option (List Nat) :=
  match split_whitespace line with
  | method :: path :: _ =>
    match parse_request_type method with
    | some request_type =>
      match get_resource app request_type path with
      | some resource => dispatch app fs fuel (Call.resource resource)
      | none => dispatch app fs fuel Call.notFound
    | none => some []
  | _ => some []

/-- A worker identity, from struct Worker in concurrency.rs (the spawned
thread handle is runtime state and carries no data). -/
structure Worker where
  id : Nat
deriving DecidableEq

/-- The worker pool, from struct ThreadPool in concurrency.rs; sender_open
models the Option sender being Some (channel still open). -/
structure ThreadPool where
  workers : List Worker
  sender_open : Bool
deriving DecidableEq

/-- ThreadPool::new: asserts size > 0 before creating any worker (a failed
assert is a panic, modelled as none), then eagerly creates workers with ids
0, 1, ..., size - 1. -/
def ThreadPool.new (size : Nat) : Option ThreadPool :=
  if size > 0 then
    some { workers := (List.range size).map (fun id => { id := id }),
           sender_open := true }
  else
    none

/-! Concrete fixtures used by the witness theorems and the non-termination
counterexample below. -/

/-- A file system with no readable files. -/
def fs_empty : FS := { read_to_string := fun _ => none, read := fun _ => none }

/-- A file system holding one binary file of three bytes. -/
def fs_image : FS :=
  { read_to_string := fun _ => none,
    read := fun p => if p = "/i.png" then some [1, 2, 3] else none }

/-- An app with no routes and no fallback routes. -/
def app_empty : App := { resources := [], resource_404 := none, resource_500 := none }

/-- A 404 fallback route whose handler succeeds but points at a file that
does not exist in fs_empty; the misconfiguration of spec section 9. -/
def resource_404_broken : Resource :=
  { request_type := RequestType.GET, path := "/404",
    resource_type := ResourceType.HTML,
    handler := Except.ok { status_code := StatusCode.NotFound, path := "/missing.html" } }

/-- An app whose only fallback is the broken 404 route. -/
def app_broken_404 : App :=
  { resources := [], resource_404 := some resource_404_broken, resource_500 := none }

/-- An image route serving the file of fs_image. -/
def resource_image : Resource :=
  { request_type := RequestType.GET, path := "/img",
    resource_type := ResourceType.IMAGE,
    handler := Except.ok { status_code := StatusCode.OK, path := "/i.png" } }

/-- A page route on a path distinct from the duplicate pair below. -/
def resource_a : Resource :=
  { request_type := RequestType.GET, path := "/a",
    resource_type := ResourceType.HTML,
    handler := Except.ok { status_code := StatusCode.OK, path := "/a.html" } }

/-- First registration of the duplicated (GET, /dup) route. -/
def resource_dup_first : Resource :=
  { request_type := RequestType.GET, path := "/dup",
    resource_type := ResourceType.HTML,
    handler := Except.ok { status_code := StatusCode.OK, path := "/first.html" } }

/-- Second registration of the duplicated (GET, /dup) route, observably
different from the first. -/
def resource_dup_second : Resource :=
  { request_type := RequestType.GET, path := "/dup",
    resource_type := ResourceType.REDIRECT,
    handler := Except.ok { status_code := StatusCode.PermanentRedirect, path := "/second" } }

/-- A route whose handler returns Failure. -/
def resource_failing : Resource :=
  { request_type := RequestType.GET, path := "/",
    resource_type := ResourceType.HTML,
    handler := Except.error "Failed" }

/-- An app with only the failing route and no fallbacks. -/
def app_failing : App :=
  { resources := [resource_failing], resource_404 := none, resource_500 := none }

/-- A page route whose handler succeeds but whose file is absent. -/
def resource_missing_page : Resource :=
  { request_type := RequestType.GET, path := "/page",
    resource_type := ResourceType.HTML,
    handler := Except.ok { status_code := StatusCode.OK, path := "/no-such-file.html" } }

/-- A redirect route whose handler picks status 200 OK and a locator that
names no existing file. -/
def resource_redirect_ok : Resource :=
  { request_type := RequestType.GET, path := "/go",
    resource_type := ResourceType.REDIRECT,
    handler := Except.ok { status_code := StatusCode.OK, path := "/missing-target" } }

/-! Theorems. -/

/-- Key step of the C1 analysis: with the broken 404 fallback of
app_broken_404, the three dispatch states reachable from the not-found path
call each other in a cycle (notFound into the 404 resource, the 404 resource
into its page encode, the failing page read back into the 404 resource), so
no fuel amount suffices for any of them to produce a reply. -/
theorem dispatch_loop_broken_404 (fuel : Nat) :
    dispatch app_broken_404 fs_empty fuel (Call.resource resource_404_broken) = none ∧
    dispatch app_broken_404 fs_empty fuel (Call.html "/missing.html" StatusCode.NotFound) = none ∧
    dispatch app_broken_404 fs_empty fuel Call.notFound = none := by
  induction fuel with
  | zero => exact ⟨rfl, rfl, rfl⟩
  | succ n ih =>
    obtain ⟨ih1, ih2, ih3⟩ := ih
    have e1 : dispatch app_broken_404 fs_empty (n + 1) (Call.resource resource_404_broken)
        = dispatch app_broken_404 fs_empty n (Call.html "/missing.html" StatusCode.NotFound) := rfl
    have e2 : dispatch app_broken_404 fs_empty (n + 1) (Call.html "/missing.html" StatusCode.NotFound)
        = dispatch app_broken_404 fs_empty n (Call.resource resource_404_broken) := rfl
    have e3 : dispatch app_broken_404 fs_empty (n + 1) Call.notFound
        = dispatch app_broken_404 fs_empty n (Call.resource resource_404_broken) := rfl
    exact ⟨e1.trans ih2, e2.trans ih1, e3.trans ih1⟩

/-- Claim C1 is violated by the code: fallback dispatch is NOT bounded to one
level of recursion. For the concrete request GET /x against an app whose 404
fallback route points at a missing file, handle_request returns none for
every fuel amount, i.e. the Rust mutual recursion handle_not_found into
handle_resource into handle_html and back never terminates (a stack overflow
in practice) instead of degrading to the built-in zero-length 404 reply. -/
theorem c1_fallback_unbounded (fuel : Nat) :
    handle_request app_broken_404 fs_empty "GET /x HTTP/1.1" fuel = none := by
  have hsplit : split_whitespace "GET /x HTTP/1.1" = ["GET", "/x", "HTTP/1.1"] := by decide
  have hm : parse_request_type "GET" = some RequestType.GET := rfl
  have hg : get_resource app_broken_404 RequestType.GET "/x" = none := rfl
  have hloop := dispatch_loop_broken_404 fuel
  simp only [handle_request, hsplit, hm, hg]
  exact hloop.2.2

/-- Claim C2: for a binary (image) route whose handler returns a Response and
whose file read succeeds, the bytes written are the status line, a
Content-Length header equal to the byte length of the raw content, a blank
line, and then the raw content bytes themselves appended as bytes, not any
textual rendering of them. -/
theorem c2_image_raw_bytes (app : App) (fs : FS) (resource : Resource)
    (status : StatusCode) (path : String) (content : List Nat) (fuel : Nat)
    (htype : resource.resource_type = ResourceType.IMAGE)
    (hhandler : resource.handler = Except.ok { status_code := status, path := path })
    (hread : fs.read path = some content) :
    handle_resource app fs (fuel + 1 + 1) resource =
      some (strBytes (status.display ++ "\r\nContent-Length: " ++
        toString content.length ++ "\r\n\r\n") ++ content) := by
  simp [handle_resource, dispatch, select_response, hhandler, htype, hread]

/-- Witness for C2: the three-byte file of fs_image is served raw with
Content-Length 3. -/
theorem c2_image_raw_bytes_witness :
    resource_image.resource_type = ResourceType.IMAGE ∧
    fs_image.read "/i.png" = some [1, 2, 3] ∧
    handle_resource app_empty fs_image 2 resource_image =
      some (strBytes (StatusCode.OK.display ++ "\r\nContent-Length: " ++
        toString ([1, 2, 3] : List Nat).length ++ "\r\n\r\n") ++ [1, 2, 3]) :=
  ⟨by decide, by decide,
    c2_image_raw_bytes app_empty fs_image resource_image StatusCode.OK "/i.png"
      [1, 2, 3] 0 (by decide) (by decide) (by decide)⟩

/-- Claim C3: route lookup scans the registered routes in registration order
and returns the first route whose method and path both match; in particular,
whatever matching routes follow the first match (such as duplicates of the
same method and path) are never selected. -/
theorem c3_first_match_wins (pre post : List Resource) (r : Resource)
    (o4 o5 : Option Resource) (request_type : RequestType) (path : String)
    (hpre : ∀ r' ∈ pre, ¬(r'.request_type = request_type ∧ r'.path = path))
    (hmatch : r.request_type = request_type ∧ r.path = path) :
    get_resource
      { resources := pre ++ r :: post, resource_404 := o4, resource_500 := o5 }
      request_type path = some r := by
  induction pre with
  | nil =>
    have hf : (r.request_type == request_type && r.path == path) = true := by
      simp [hmatch.1, hmatch.2]
    simp [get_resource, List.find?_cons_of_pos, hf]
  | cons a t ih =>
    have ha : ¬(a.request_type = request_type ∧ a.path = path) :=
      hpre a (List.mem_cons_self a t)
    have hf : ¬((a.request_type == request_type && a.path == path) = true) := by
      intro hcontra
      exact ha (by simpa [Bool.and_eq_true, beq_iff_eq] using hcontra)
    have ht : ∀ r' ∈ t, ¬(r'.request_type = request_type ∧ r'.path = path) :=
      fun r' hr' => hpre r' (List.mem_cons_of_mem a hr')
    have hrec := ih ht
    simp only [get_resource] at hrec ⊢
    simpa [List.find?_cons_of_neg, hf] using hrec

/-- Witness for C3: with (GET, /dup) registered twice, lookup returns the
first registration even though the second also matches. -/
theorem c3_first_match_wins_witness :
    resource_dup_second.request_type = RequestType.GET ∧
    resource_dup_second.path = "/dup" ∧
    get_resource
      { resources := [resource_a, resource_dup_first, resource_dup_second],
        resource_404 := none, resource_500 := none }
      RequestType.GET "/dup" = some resource_dup_first :=
  ⟨by decide, by decide,
    c3_first_match_wins [resource_a] [resource_dup_second] resource_dup_first
      none none RequestType.GET "/dup" (by decide) (by decide)⟩

/-- Claim C4: a request matching a route whose handler returns Failure, with
no 500 fallback route registered, is answered with exactly the bytes of
HTTP/1.1 500 INTERNAL SERVER ERROR, carriage return line feed, Content-Length
0, and a blank line; the failure is handled by the dispatch functions
themselves (the embedding is total here), not by terminating the process. -/
theorem c4_handler_failure_builtin_500 (app : App) (fs : FS) (line : String)
    (method path : String) (rest : List String) (request_type : RequestType)
    (resource : Resource) (msg : String) (fuel : Nat)
    (hsplit : split_whitespace line = method :: path :: rest)
    (hmethod : parse_request_type method = some request_type)
    (hlookup : get_resource app request_type path = some resource)
    (hhandler : resource.handler = Except.error msg)
    (h500 : app.resource_500 = none) :
    handle_request app fs line (fuel + 1 + 1) =
      some (strBytes "HTTP/1.1 500 INTERNAL SERVER ERROR\r\nContent-Length: 0\r\n\r\n") := by
  have hb : builtin_500 = strBytes "HTTP/1.1 500 INTERNAL SERVER ERROR\r\nContent-Length: 0\r\n\r\n" := by decide
  simp [handle_request, hsplit, hmethod, hlookup, dispatch, select_response, hhandler, h500, hb]

/-- Witness for C4: the failing route of app_failing yields the built-in 500
reply. -/
theorem c4_handler_failure_builtin_500_witness :
    resource_failing.handler = Except.error "Failed" ∧
    app_failing.resource_500 = none ∧
    handle_request app_failing fs_empty "GET / HTTP/1.1" 2 =
      some (strBytes "HTTP/1.1 500 INTERNAL SERVER ERROR\r\nContent-Length: 0\r\n\r\n") :=
  ⟨by decide, by decide,
    c4_handler_failure_builtin_500 app_failing fs_empty "GET / HTTP/1.1" "GET" "/"
      ["HTTP/1.1"] RequestType.GET resource_failing "Failed" 0
      (by decide) (by decide) (by decide) (by decide) (by decide)⟩

/-- Claim C5: for a page or binary route whose handler returns a Response, a
missing (unreadable) file at the resource locator escalates to the not-found
path: with no 404 fallback registered the built-in minimal 404 reply is
written, and with a registered 404 fallback route that route is dispatched as
a full route; the missing file is handled, not a process-terminating fault. -/
theorem c5_missing_file_not_found_path (app : App) (fs : FS)
    (resource : Resource) (status : StatusCode) (path : String) (fuel : Nat)
    (htype : resource.resource_type = ResourceType.HTML ∨
      resource.resource_type = ResourceType.IMAGE)
    (hhandler : resource.handler = Except.ok { status_code := status, path := path })
    (htext : fs.read_to_string path = none)
    (hbytes : fs.read path = none) :
    (app.resource_404 = none →
      handle_resource app fs (fuel + 1 + 1 + 1) resource =
        some (strBytes "HTTP/1.1 404 NOT FOUND\r\nContent-Length: 0\r\n\r\n")) ∧
    (∀ resource404, app.resource_404 = some resource404 →
      handle_resource app fs (fuel + 1 + 1) resource =
        handle_resource app fs fuel resource404) := by
  have hb : builtin_404 = strBytes "HTTP/1.1 404 NOT FOUND\r\nContent-Length: 0\r\n\r\n" := by decide
  constructor
  · intro h404
    rcases htype with h | h <;>
      simp [handle_resource, dispatch, select_response, hhandler, h, htext, hbytes, h404, hb]
  · intro resource404 h404
    rcases htype with h | h <;>
      simp [handle_resource, dispatch, select_response, hhandler, h, htext, hbytes, h404]

/-- Witness for C5: the page route at an absent file degrades to the built-in
404 reply when no 404 fallback is registered. -/
theorem c5_missing_file_not_found_path_witness :
    fs_empty.read_to_string "/no-such-file.html" = none ∧
    app_empty.resource_404 = none ∧
    handle_resource app_empty fs_empty 3 resource_missing_page =
      some (strBytes "HTTP/1.1 404 NOT FOUND\r\nContent-Length: 0\r\n\r\n") :=
  ⟨rfl, rfl,
    (c5_missing_file_not_found_path app_empty fs_empty resource_missing_page
      StatusCode.OK "/no-such-file.html" 0 (Or.inl (by decide)) (by decide)
      (by decide) (by decide)).1 (by decide)⟩

/-- Claim C6: a request line with fewer than two whitespace-separated tokens
(including the empty line) is dropped: handle_request returns without writing
any bytes to the connection, for every app, file system and fuel amount. -/
theorem c6_malformed_dropped (app : App) (fs : FS) (line : String) (fuel : Nat)
    (hlen : (split_whitespace line).length < 2) :
    handle_request app fs line fuel = some [] := by
  cases h : split_whitespace line with
  | nil => simp [handle_request, h]
  | cons m rest =>
    cases rest with
    | nil => simp [handle_request, h]
    | cons p rest2 =>
      rw [h] at hlen
      simp at hlen
      omega

/-- Witness for C6: the empty request line produces no bytes. -/
theorem c6_malformed_dropped_witness :
    (split_whitespace "").length < 2 ∧
    handle_request app_empty fs_empty "" 0 = some [] :=
  ⟨by decide, c6_malformed_dropped app_empty fs_empty "" 0 (by decide)⟩

/-- Claim C7: a request whose method and path match no registered route, with
no 404 fallback route registered, is answered with exactly the bytes of
HTTP/1.1 404 NOT FOUND, carriage return line feed, Content-Length 0, and a
blank line. -/
theorem c7_unregistered_builtin_404 (app : App) (fs : FS) (line : String)
    (method path : String) (rest : List String) (request_type : RequestType)
    (fuel : Nat)
    (hsplit : split_whitespace line = method :: path :: rest)
    (hmethod : parse_request_type method = some request_type)
    (hlookup : get_resource app request_type path = none)
    (h404 : app.resource_404 = none) :
    handle_request app fs line (fuel + 1) =
      some (strBytes "HTTP/1.1 404 NOT FOUND\r\nContent-Length: 0\r\n\r\n") := by
  have hb : builtin_404 = strBytes "HTTP/1.1 404 NOT FOUND\r\nContent-Length: 0\r\n\r\n" := by decide
  simp [handle_request, hsplit, hmethod, hlookup, dispatch, h404, hb]

/-- Witness for C7: GET /x against the empty app yields the built-in 404
reply. -/
theorem c7_unregistered_builtin_404_witness :
    get_resource app_empty RequestType.GET "/x" = none ∧
    app_empty.resource_404 = none ∧
    handle_request app_empty fs_empty "GET /x HTTP/1.1" 1 =
      some (strBytes "HTTP/1.1 404 NOT FOUND\r\nContent-Length: 0\r\n\r\n") :=
  ⟨by decide, by decide,
    c7_unregistered_builtin_404 app_empty fs_empty "GET /x HTTP/1.1" "GET" "/x"
      ["HTTP/1.1"] RequestType.GET 0 (by decide) (by decide) (by decide) (by decide)⟩

/-- Claim C8: constructing a worker pool of size 0 fails immediately before
any worker is created (the assert precedes the worker loop, modelled as
none), and for every positive size the construction succeeds and eagerly
creates exactly that many workers, with ids 0 up to size minus 1. -/
theorem c8_threadpool_new (size : Nat) (hpos : 0 < size) :
    ThreadPool.new 0 = none ∧
    ∃ pool, ThreadPool.new size = some pool ∧ pool.workers.length = size ∧
      ∀ i (hi : i < pool.workers.length), (pool.workers.get ⟨i, hi⟩).id = i := by
  constructor
  · rfl
  · refine ⟨{ workers := (List.range size).map (fun id => { id := id }), sender_open := true }, ?_, ?_, ?_⟩
    · simp [ThreadPool.new, hpos]
    · simp
    · intro i hi
      simp

/-- Witness for C8 at size 2. -/
theorem c8_threadpool_new_witness :
    0 < 2 ∧ (ThreadPool.new 0 = none ∧
      ∃ pool, ThreadPool.new 2 = some pool ∧ pool.workers.length = 2 ∧
        ∀ i (hi : i < pool.workers.length), (pool.workers.get ⟨i, hi⟩).id = i) :=
  ⟨by decide, c8_threadpool_new 2 (by decide)⟩

/-- Claim C10: a redirect route whose handler returns a Response writes
exactly the status line of the handler-chosen status (301 is not forced), a
Location header carrying the locator, Content-Length 0 and a blank line, with
no body; the statement quantifies over every file system, so no file read can
influence the reply and the locator need not name an existing file. -/
theorem c10_redirect_bytes (app : App) (fs : FS) (resource : Resource)
    (status : StatusCode) (path : String) (fuel : Nat)
    (htype : resource.resource_type = ResourceType.REDIRECT)
    (hhandler : resource.handler = Except.ok { status_code := status, path := path }) :
    handle_resource app fs (fuel + 1) resource =
      some (strBytes (status.display ++ "\r\nLocation: " ++ path ++
        "\r\nContent-Length: 0\r\n\r\n")) := by
  simp [handle_resource, dispatch, select_response, hhandler, htype, handle_redirect]

/-- Witness for C10: a redirect with status 200 OK to a locator that exists
nowhere in the file system. -/
theorem c10_redirect_bytes_witness :
    resource_redirect_ok.resource_type = ResourceType.REDIRECT ∧
    fs_empty.read "/missing-target" = none ∧
    handle_resource app_empty fs_empty 1 resource_redirect_ok =
      some (strBytes (StatusCode.OK.display ++ "\r\nLocation: " ++ "/missing-target" ++
        "\r\nContent-Length: 0\r\n\r\n")) :=
  ⟨by decide, rfl,
    c10_redirect_bytes app_empty fs_empty resource_redirect_ok StatusCode.OK
      "/missing-target" 0 (by decide) (by decide)⟩

end WwwDaanLubbers
